import Mathlib

/-
Verification of the InterMol topology core (`intermol/system.py`,
`intermol/forces/cosine_squared_angle_type.py`,
`intermol/gromacs/gromacs_driver.py`) against its natural-language
specification.  The Python code is shallowly embedded: Python `dict` /
`OrderedDict` registries become insertion-ordered association lists,
generators become list-producing functions, exceptions become `Except`,
and `numpy` arrays become rational matrices tagged (or not) with a
physical unit.  Only the components the verified properties touch are
modelled; each definition mirrors the corresponding source function.
-/

namespace InterMol

/-- Physical unit dimensions used by the modelled code (`simtk.unit`). -/
inductive UnitDim
  | degrees
  | kilojoules_per_mole
  | nanometers
  | dimensionless
deriving DecidableEq, Repr

/-- A numpy-style rectangular matrix of rationals (the box-vector payload). -/
abbrev Mat := List (List ℚ)

/-- The 2-D shape of a matrix, as numpy reports it for a 2-D array. -/
def npShape (m : Mat) : Nat × Nat := (m.length, (m.headD []).length)

/-- `np.zeros([3, 3])`. -/
def npZeros33 : Mat := [[0, 0, 0], [0, 0, 0], [0, 0, 0]]

/-- A box-vector value: either a `simtk` `Quantity` (matrix tagged with a
unit) or a plain `numpy` ndarray (no unit tag). -/
inductive BoxValue
  | quantity (value : Mat) (unit : UnitDim)
  | ndarray (value : Mat)
deriving DecidableEq, Repr

/-- The shape of the underlying array of a box value. -/
def BoxValue.shape : BoxValue → Nat × Nat
  | .quantity m _ => npShape m
  | .ndarray m => npShape m

/-- `np.array(v)`: by numpy's contract the result is a plain `ndarray`,
never a `Quantity` — converting a unit-tagged value drops its top-level
unit tag and keeps the numeric payload. -/
def np_array : BoxValue → BoxValue
  | .quantity m _ => .ndarray m
  | .ndarray m => .ndarray m

/-- Python exceptions that the embedded code can raise.
`unknownMoleculeType` belongs to the spec's error taxonomy; the embedded
code itself only ever raises `keyError` and `indexError`. -/
inductive PyErr
  | keyError (key : String)
  | indexError
  | unknownMoleculeType (key : String)
deriving DecidableEq, Repr

/-- Lookup in an insertion-ordered dictionary (`dict` / `OrderedDict`):
first entry with the given key. -/
def odLookup {α : Type} : List (String × α) → String → Option α
  | [], _ => none
  | (k, v) :: rest, key => if k = key then some v else odLookup rest key

/-- `d[key] = val` on an insertion-ordered dictionary: update in place if
the key is present, otherwise append at the end. -/
def odSet {α : Type} : List (String × α) → String → α → List (String × α)
  | [], key, val => [(key, val)]
  | (k, v) :: rest, key, val =>
      if k = key then (k, val) :: rest else (k, v) :: odSet rest key val

/-- `if key in d: del d[key]` on an insertion-ordered dictionary. -/
def odDel {α : Type} : List (String × α) → String → List (String × α)
  | [], _ => []
  | (k, v) :: rest, key => if k = key then rest else (k, v) :: odDel rest key

/-- Python list indexing `l[i]` with an `int` index: negative indices wrap
once from the end; anything still out of range raises `IndexError`. -/
def pyGet {α : Type} (l : List α) (i : Int) : Except PyErr α :=
  let j := if i < 0 then i + l.length else i
  if h : 0 ≤ j ∧ j < (l.length : Int) then .ok (l.get ⟨j.toNat, by omega⟩)
  else .error .indexError

/-- Atoms are identified by their (globally unique) object identity. -/
abbrev Atom := Nat

/-- A bond template: 1-based indices of the two bonded atoms within a
molecule's atom sequence. -/
structure Bond where
  atom1 : Int
  atom2 : Int
deriving DecidableEq, Repr

/-- A molecule: its molecule-type name and its own ordered atom sequence. -/
structure Molecule where
  name : String
  atoms : List Atom
deriving DecidableEq, Repr

/-- A molecule type: the replicated molecules plus the shared bond
templates (`MoleculeType` in `intermol/moleculetype.py`). -/
structure MoleculeType where
  name : String
  molecules : List Molecule
  bonds : List Bond
deriving DecidableEq, Repr

/-- `MoleculeType.add_molecule`: append a molecule to the type. -/
def MoleculeType.add_molecule (mt : MoleculeType) (molecule : Molecule) :
    MoleculeType :=
  { mt with molecules := mt.molecules ++ [molecule] }

/-- Resolve one bond template against one molecule's concrete atoms
(the body of the `connected_pairs` generator loop):
`molecule.atoms[bond.atom1 - 1], molecule.atoms[bond.atom2 - 1]`. -/
def Molecule.bondPair (m : Molecule) (b : Bond) : Except PyErr (Atom × Atom) := do
  let atom1 ← pyGet m.atoms (b.atom1 - 1)
  let atom2 ← pyGet m.atoms (b.atom2 - 1)
  pure (atom1, atom2)

/-- Run an action over a list, collecting the yielded values in order and
propagating the first raised exception (a Python `for`/`yield` loop). -/
def yieldAll {α β : Type} (f : α → Except PyErr β) : List α → Except PyErr (List β)
  | [] => .ok []
  | a :: as =>
      match f a with
      | .error e => .error e
      | .ok b =>
          match yieldAll f as with
          | .error e => .error e
          | .ok bs => .ok (b :: bs)

/-- An undirected `networkx` graph over atoms: a set of canonicalised
edges (no parallel edges; self-loops allowed). -/
structure NXGraph where
  edges : Finset (Atom × Atom)
deriving DecidableEq

/-- Canonical form of an undirected edge. -/
def canonEdge (p : Atom × Atom) : Atom × Atom :=
  if p.2 < p.1 then (p.2, p.1) else p

/-- `nx.Graph()`. -/
def NXGraph.empty : NXGraph := ⟨∅⟩

/-- `g.add_edges_from(pairs)`. -/
def NXGraph.add_edges_from (g : NXGraph) (ps : List (Atom × Atom)) : NXGraph :=
  ⟨g.edges ∪ (ps.map canonEdge).toFinset⟩

/-- `g.number_of_edges()`. -/
def NXGraph.number_of_edges (g : NXGraph) : Nat := g.edges.card

/-- The `System` object state (`intermol/system.py`).  The four
interaction-type registries are omitted: no verified property touches
them.  Field names keep the source's (private) attribute names. -/
structure System where
  name : String
  nonbonded_function : Int
  combination_rule : Int
  genpairs : String
  lj_correction : Int
  coulomb_correction : Int
  _box_vector : BoxValue
  _n_atoms : Option Int
  _molecule_types : List (String × MoleculeType)
  _bondgraph : Option NXGraph
deriving DecidableEq

/-- `System.__init__(name=None)`: Python treats both `None` and the empty
string as falsy, so either yields the default name. -/
def System.init (name : Option String) : System :=
  { name := match name with
      | some n => if n = "" then "Untitled" else n
      | none => "Untitled"
    nonbonded_function := 0
    combination_rule := 0
    genpairs := "yes"
    lj_correction := 0
    coulomb_correction := 0
    _box_vector := .quantity npZeros33 .nanometers
    _n_atoms := none
    _molecule_types := []
    _bondgraph := none }

/-- `System.add_molecule`: `self._molecule_types[molecule.name].add_molecule(molecule)`.
A missing registry entry makes the subscript raise `KeyError` before
anything is mutated. -/
def System.add_molecule (s : System) (molecule : Molecule) : Except PyErr System :=
  match odLookup s._molecule_types molecule.name with
  | none => .error (.keyError molecule.name)
  | some mt =>
      .ok { s with
        _molecule_types :=
          odSet s._molecule_types molecule.name (mt.add_molecule molecule) }

/-- `System.add_molecule_type`. -/
def System.add_molecule_type (s : System) (mt : MoleculeType) : System :=
  { s with _molecule_types := odSet s._molecule_types mt.name mt }

/-- The `atoms` property: every molecule type, every molecule, every atom,
in registry / sequence order. -/
def System.atoms (s : System) : List Atom :=
  (s._molecule_types.map fun p => (p.2.molecules.map Molecule.atoms).flatten).flatten

/-- The `n_atoms` getter.  Python's `if not self._n_atoms` treats both
`None` and a cached `0` as "not yet computed", so either triggers a full
traversal.  The returned `Bool` records whether that traversal ran. -/
def System.n_atoms_get (s : System) : Int × System × Bool :=
  match s._n_atoms with
  | some n =>
      if n = 0 then
        let c : Int := s.atoms.length
        (c, { s with _n_atoms := some c }, true)
      else (n, s, false)
  | none =>
      let c : Int := s.atoms.length
      (c, { s with _n_atoms := some c }, true)

/-- The `n_atoms` setter. -/
def System.n_atoms_set (s : System) (n : Int) : System :=
  { s with _n_atoms := some n }

/-- The `box_vector` getter. -/
def System.box_vector_get (s : System) : BoxValue := s._box_vector

/-- The `box_vector` setter.  On a shape other than `(3, 3)` the source
builds a `ValueError` and hands it to `logger.exception` — it is logged,
not raised — and then stores `np.array(v)` unconditionally.  The returned
`Bool` records whether the error was logged. -/
def System.box_vector_set (s : System) (v : BoxValue) : System × Bool :=
  ({ s with _box_vector := np_array v }, decide (v.shape ≠ (3, 3)))

/-- The `connected_pairs` generator: every molecule type, every molecule,
every bond template resolved against that molecule's atoms. -/
def System.connected_pairs (s : System) : Except PyErr (List (Atom × Atom)) := do
  let per ← yieldAll (fun p => do
      let mols ← yieldAll (fun mol => yieldAll mol.bondPair p.2.bonds)
        p.2.molecules
      pure mols.flatten)
    s._molecule_types
  pure per.flatten

/-- One molecule type's contribution to `connected_pairs_per_moleculetype`:
the loop body runs for the first molecule only (`break` after it), and a
type with no molecules contributes nothing. -/
def MoleculeType.first_molecule_pairs (mt : MoleculeType) :
    Except PyErr (List ((Atom × MoleculeType) × (Atom × MoleculeType))) :=
  match mt.molecules with
  | [] => .ok []
  | mol :: _ =>
      yieldAll (fun b => (mol.bondPair b).map fun p => ((p.1, mt), (p.2, mt)))
        mt.bonds

/-- The `connected_pairs_per_moleculetype` generator. -/
def System.connected_pairs_per_moleculetype (s : System) :
    Except PyErr (List ((Atom × MoleculeType) × (Atom × MoleculeType))) := do
  let per ← yieldAll (fun p => p.2.first_molecule_pairs) s._molecule_types
  pure per.flatten

/-- The `bondgraph` property: return the memoized graph if present,
otherwise build it from `connected_pairs`, cache it and return it. -/
def System.bondgraph (s : System) : Except PyErr (NXGraph × System) :=
  match s._bondgraph with
  | some g => .ok (g, s)
  | none =>
      (s.connected_pairs).map fun ps =>
        let g := NXGraph.empty.add_edges_from ps
        (g, { s with _bondgraph := some g })

/-! ### Force-field interaction types (`cosine_squared_angle_type.py`) -/

/-- A `simtk` quantity: a magnitude tagged with a unit dimension. -/
structure Qty where
  val : ℚ
  dim : UnitDim
deriving DecidableEq, Repr

/-- Unit-validation failure raised before an interaction type is built. -/
inductive UnitErr
  | unitMismatch (param : String)
deriving DecidableEq, Repr

/-- Modelled from the spec: the `accepts_compatible_units` decorator from
`intermol.decorators` (not under `src/`) validates each supplied
parameter's dimension against the variant's declared expectation
(`None` meaning "no unit check") and fails with `UnitMismatch` on any
mismatch, before the wrapped constructor body runs. -/
def checkUnit (param : String) (expected : Option UnitDim) (q : Qty) :
    Except UnitErr Unit :=
  match expected with
  | none => .ok ()
  | some d => if q.dim = d then .ok () else .error (.unitMismatch param)

/-- Modelled from the spec: `AbstractAngleType` from
`intermol/forces/abstract_angle_type.py` (not under `src/`) stores the
three bonding-type labels of an angle-like interaction (arity 3 is
enforced by the constructor signature) plus the `c` flag. -/
structure AbstractAngleType where
  bondingtype1 : String
  bondingtype2 : String
  bondingtype3 : String
  c : Bool
deriving DecidableEq, Repr

/-- `CosineSquaredAngleType`: an angle variant with an equilibrium angle
`theta` (degrees) and a force constant `k` (kJ/mol). -/
structure CosineSquaredAngleType extends AbstractAngleType where
  theta : Qty
  k : Qty
deriving DecidableEq, Repr

/-- `CosineSquaredAngleType.__init__` under its
`accepts_compatible_units(None, None, None, theta=degrees,
k=kilojoules_per_mole, c=None)` decorator: the units of `theta` and `k`
are checked first; only then is the object built, with `theta` and `k`
stored as supplied. -/
def CosineSquaredAngleType.init (bondingtype1 bondingtype2 bondingtype3 : String)
    (theta k : Qty) (c : Bool) : Except UnitErr CosineSquaredAngleType :=
  match checkUnit "theta" (some .degrees) theta with
  | .error e => .error e
  | .ok _ =>
      match checkUnit "k" (some .kilojoules_per_mole) k with
      | .error e => .error e
      | .ok _ =>
          .ok { bondingtype1 := bondingtype1, bondingtype2 := bondingtype2,
                bondingtype3 := bondingtype3, c := c, theta := theta, k := k }

/-- Whether a construction attempt failed with a `UnitMismatch`. -/
def failsUnitMismatch {α : Type} : Except UnitErr α → Bool
  | .error (.unitMismatch _) => true
  | _ => false

/-! ### GROMACS driver (`gromacs_driver.py`): energy grouping -/

/-- An insertion-ordered mapping of energy-term names to magnitudes in
kilojoules per mole (the common unit of every value involved). -/
abbrev EDict := List (String × ℚ)

/-- The `unwanted` denylist: reported terms that are not potential-energy
contributions. -/
def unwanted : List String :=
  ["Kinetic En.", "Total Energy", "Temperature", "Pressure",
   "Volume", "Box-X", "Box-Y", "Box-Z", "Box-atomic_number",
   "Pres. DC", "Vir-XY", "Vir-XX", "Vir-XZ", "Vir-YY", "Vir-YX",
   "Vir-YZ", "Vir-ZX", "Vir-ZY", "Vir-ZZ", "pV", "Density", "Enthalpy"]

/-- Member terms summed into the "Dispersive" category. -/
def dispersive_terms : List String := ["LJ (SR)", "LJ-14", "Disper. corr."]

/-- Member terms summed into the "Electrostatic" category. -/
def electrostatic_terms : List String :=
  ["Coulomb (SR)", "Coulomb-14", "Coul. recip."]

/-- Member terms summed into the "All dihedrals" category. -/
def all_dihedrals_terms : List String :=
  ["Ryckaert-Bell.", "Proper Dih.", "Improper Dih."]

/-- One member step of a category pass: `e_out[cat] += e_out[g]` when the
member `g` is present in the mapping; absent members are skipped, not an
error. -/
def catStep (cat : String) (acc : EDict) (g : String) : EDict :=
  match odLookup acc g with
  | some v => odSet acc cat ((odLookup acc cat).getD 0 + v)
  | none => acc

/-- One category pass of `_group_energy_terms`: `e_out[cat] = 0`, then
`e_out[cat] += e_out[g]` for each member `g` present in the mapping. -/
def accumulateCategory (cat : String) (members : List String) (e : EDict) :
    EDict :=
  members.foldl (catStep cat) (odSet e cat 0)

/-- The grouping core of `_group_energy_terms`, applied to the ordered
term-to-value mapping parsed from `energy.xvg`: delete the denylisted
terms, accumulate "Dispersive" and "Electrostatic", derive "Non-bonded"
as their sum, then accumulate "All dihedrals". -/
def group_energy_terms (e0 : EDict) : EDict :=
  let e1 := unwanted.foldl (fun acc g => odDel acc g) e0
  let e2 := accumulateCategory "Dispersive" dispersive_terms e1
  let e3 := accumulateCategory "Electrostatic" electrostatic_terms e2
  let e4 := odSet e3 "Non-bonded"
    ((odLookup e3 "Electrostatic").getD 0 + (odLookup e3 "Dispersive").getD 0)
  accumulateCategory "All dihedrals" all_dihedrals_terms e4

/-! ### GROMACS driver: binary discovery in `gromacs_energies` -/

/-- `os.path.join(a, b)` for the paths the driver builds. -/
def pathJoin (a b : String) : String :=
  if a = "" then b else if a.endsWith "/" then a ++ b else a ++ "/" ++ b

/-- Whether the complete binary set for one precision suffix is usable:
`which(grompp+s) and which(mdrun+s) and which(g_energy+s)` under
`gro_path`.  `which` itself lives in `intermol.tests.testing_tools` (not
under `src/`) and is modelled from the spec as an oracle deciding whether
a named simulation binary is usable. -/
def gmx_usable (which : String → Bool) (gro_path : String) (s : String) : Bool :=
  which (pathJoin gro_path ("grompp" ++ s)) &&
  which (pathJoin gro_path ("mdrun" ++ s)) &&
  which (pathJoin gro_path ("g_energy" ++ s))

/-- The binary-discovery loop of `gromacs_energies` over the suffix list
`['_d', '']`: each iteration rebinds the candidate binaries to the
current suffix; a usable double-precision set breaks out of the loop, a
usable single-precision set merely records success.  The state is the
last-assigned suffix and the `found_binaries` flag. -/
def gmx_find_loop (which : String → Bool) (gro_path : String) :
    List String → Option String × Bool → Option String × Bool
  | [], st => st
  | s :: rest, (_, found) =>
      if gmx_usable which gro_path s then
        if s = "_d" then (some s, true)
        else if s = "" then gmx_find_loop which gro_path rest (some s, true)
        else gmx_find_loop which gro_path rest (some s, found)
      else gmx_find_loop which gro_path rest (some s, found)

/-- Binary selection in `gromacs_energies`: run the discovery loop over
`['_d', '']` and either return the three selected binary paths or raise
`IOError('Unable to find GROMACS executables.')`. -/
def gromacs_energies_binaries (which : String → Bool) (gro_path : String) :
    Except String (String × String × String) :=
  match gmx_find_loop which gro_path ["_d", ""] (none, false) with
  | (some s, true) =>
      .ok (pathJoin gro_path ("grompp" ++ s), pathJoin gro_path ("mdrun" ++ s),
           pathJoin gro_path ("g_energy" ++ s))
  | _ => .error "Unable to find GROMACS executables."

/-! ### Concrete objects used to evaluate the embedded code -/

/-- A freshly constructed `System()`. -/
def freshSystem : System := System.init none

/-- A malformed (2×2) unit-tagged box matrix. -/
def badBox : BoxValue := .quantity [[1, 2], [3, 4]] .nanometers

/-- A well-formed 3×3 box matrix payload. -/
def goodBox : Mat := [[1, 2, 3], [4, 5, 6], [7, 8, 9]]

/-- A molecule whose type name is nowhere registered. -/
def solMolecule : Molecule := ⟨"SOL", []⟩

/-- A molecule type with two replicated molecules and one bond template. -/
def waterType : MoleculeType :=
  ⟨"SOL", [⟨"SOL", [0, 1]⟩, ⟨"SOL", [2, 3]⟩], [⟨1, 2⟩]⟩

/-- A molecule type with a bond template but zero molecules. -/
def emptyBondedType : MoleculeType := ⟨"EMP", [], [⟨1, 2⟩]⟩

/-- A molecule type whose bond list repeats the same template twice. -/
def dupBondType : MoleculeType := ⟨"DUP", [⟨"DUP", [10, 11]⟩], [⟨1, 2⟩, ⟨1, 2⟩]⟩

/-- A system holding `dupBondType`. -/
def dupSystem : System := freshSystem.add_molecule_type dupBondType

/-- A system holding `waterType`. -/
def dimerSystem : System := freshSystem.add_molecule_type waterType

/-- The bond graph `dimerSystem` builds on first access. -/
def dimerGraph : NXGraph := NXGraph.empty.add_edges_from [(0, 1), (2, 3)]

/-- `dimerSystem` after its bond graph has been memoized. -/
def dimerCached : System := { dimerSystem with _bondgraph := some dimerGraph }

/-- A system with a single one-atom molecule. -/
def oneAtomSystem : System := freshSystem.add_molecule_type ⟨"A", [⟨"A", [0]⟩], []⟩

/-- The energy-term mapping of the specification's grouping example. -/
def sampleTerms : EDict := [("LJ (SR)", 10), ("Coulomb (SR)", -20), ("Kinetic En.", 5)]

end InterMol

deriving instance DecidableEq for Except

namespace InterMol

/-! ### Theorems -/

/-- C1 (failing input): assigning the 2×2 matrix `badBox` to a fresh
system's `box_vector` does not raise — the setter has no failure outcome,
it only logs the `ValueError` (second component `true`) — and it stores
the malformed `np.array(v)`, overwriting the previously stored box
vector, contrary to the specified behaviour. -/
theorem box_vector_setter_stores_malformed_matrix :
    (freshSystem.box_vector_set badBox).1.box_vector_get = .ndarray [[1, 2], [3, 4]] ∧
    freshSystem.box_vector_get = .quantity npZeros33 .nanometers ∧
    (freshSystem.box_vector_set badBox).1.box_vector_get ≠ freshSystem.box_vector_get ∧
    (freshSystem.box_vector_set badBox).2 = true :=
  ⟨rfl, rfl, fun h => BoxValue.noConfusion h, rfl⟩

/-- C2 (counterexample): adding a molecule whose type is unregistered
raises the generic `KeyError` of the dictionary subscript, not the
specific `UnknownMoleculeType` error the claim requires. -/
theorem add_molecule_raises_plain_keyError :
    freshSystem.add_molecule solMolecule = .error (.keyError "SOL") ∧
    freshSystem.add_molecule solMolecule ≠ .error (.unknownMoleculeType "SOL") :=
  ⟨rfl, by decide⟩

/-- C2 (amended): for every system and molecule whose name is not a key
of the molecule-type registry, `add_molecule` raises `KeyError` naming
the missing key; the exception propagates from the registry lookup, so
the registry is untouched. -/
theorem add_molecule_unregistered_raises_keyError (s : System) (m : Molecule)
    (h : odLookup s._molecule_types m.name = none) :
    s.add_molecule m = .error (.keyError m.name) := by
  unfold System.add_molecule
  rw [h]

/-- Witness for `add_molecule_unregistered_raises_keyError` on a fresh
system and the `"SOL"` molecule. -/
theorem add_molecule_unregistered_raises_keyError_witness :
    odLookup freshSystem._molecule_types solMolecule.name = none ∧
    freshSystem.add_molecule solMolecule = .error (.keyError solMolecule.name) :=
  ⟨rfl, add_molecule_unregistered_raises_keyError freshSystem solMolecule rfl⟩

/-- C10: assigning any 3×3 unit-tagged matrix stores `np.array(v)` — a
plain ndarray, the unit tag stripped — without logging an error, even
though a freshly constructed system's box vector is a `Quantity` in
nanometers. -/
theorem box_vector_setter_strips_unit_tag (s : System) (m : Mat) (u : UnitDim)
    (h : npShape m = (3, 3)) :
    (s.box_vector_set (.quantity m u)).1.box_vector_get = .ndarray m ∧
    (s.box_vector_set (.quantity m u)).2 = false ∧
    (System.init none).box_vector_get = .quantity npZeros33 .nanometers := by
  refine ⟨rfl, ?_, rfl⟩
  simp [System.box_vector_set, BoxValue.shape, h]

/-- Witness for `box_vector_setter_strips_unit_tag` at the concrete 3×3
matrix `goodBox` tagged with nanometers. -/
theorem box_vector_setter_strips_unit_tag_witness :
    npShape goodBox = (3, 3) ∧
    ((freshSystem.box_vector_set (.quantity goodBox .nanometers)).1.box_vector_get
        = .ndarray goodBox ∧
      (freshSystem.box_vector_set (.quantity goodBox .nanometers)).2 = false ∧
      (System.init none).box_vector_get = .quantity npZeros33 .nanometers) :=
  ⟨rfl, box_vector_setter_strips_unit_tag freshSystem goodBox .nanometers rfl⟩

/-- C7: for every bonding-type triple and every `theta` in degrees and
`k` in kilojoules per mole, construction succeeds and the stored record
holds exactly the supplied labels and parameters, so `theta` and `k`
round-trip unchanged through accessor reads. -/
theorem cosine_squared_angle_type_roundtrip (b1 b2 b3 : String) (tv kv : ℚ)
    (c : Bool) :
    CosineSquaredAngleType.init b1 b2 b3 ⟨tv, .degrees⟩ ⟨kv, .kilojoules_per_mole⟩ c
      = .ok { bondingtype1 := b1, bondingtype2 := b2, bondingtype3 := b3, c := c,
              theta := ⟨tv, .degrees⟩, k := ⟨kv, .kilojoules_per_mole⟩ } :=
  rfl

/-- C6: if `theta` is not in degrees or `k` is not in kilojoules per
mole, construction fails with `UnitMismatch` and no object is returned. -/
theorem cosine_squared_angle_type_unit_mismatch (b1 b2 b3 : String)
    (theta k : Qty) (c : Bool)
    (h : theta.dim ≠ UnitDim.degrees ∨ k.dim ≠ UnitDim.kilojoules_per_mole) :
    failsUnitMismatch (CosineSquaredAngleType.init b1 b2 b3 theta k c) = true ∧
    ∀ t, CosineSquaredAngleType.init b1 b2 b3 theta k c ≠ .ok t := by
  have main :
      failsUnitMismatch (CosineSquaredAngleType.init b1 b2 b3 theta k c) = true := by
    by_cases ht : theta.dim = UnitDim.degrees
    · rcases h with h | h
      · exact absurd ht h
      · simp [CosineSquaredAngleType.init, checkUnit, ht, h, failsUnitMismatch]
    · simp [CosineSquaredAngleType.init, checkUnit, ht, failsUnitMismatch]
  refine ⟨main, fun t hok => ?_⟩
  rw [hok] at main
  simp [failsUnitMismatch] at main

/-- Witness for `cosine_squared_angle_type_unit_mismatch`: a `theta`
supplied in nanometers. -/
theorem cosine_squared_angle_type_unit_mismatch_witness :
    ((⟨100, UnitDim.nanometers⟩ : Qty).dim ≠ UnitDim.degrees ∨
      (⟨1, UnitDim.kilojoules_per_mole⟩ : Qty).dim ≠ UnitDim.kilojoules_per_mole) ∧
    (failsUnitMismatch (CosineSquaredAngleType.init "HW" "OW" "HW"
        ⟨100, .nanometers⟩ ⟨1, .kilojoules_per_mole⟩ false) = true ∧
      ∀ t, CosineSquaredAngleType.init "HW" "OW" "HW"
        ⟨100, .nanometers⟩ ⟨1, .kilojoules_per_mole⟩ false ≠ .ok t) :=
  ⟨Or.inl (by decide),
    cosine_squared_angle_type_unit_mismatch "HW" "OW" "HW" _ _ false
      (Or.inl (by decide))⟩

/-- C8 (amended): on first read with an empty cache, `n_atoms` traverses
the atoms, caches the count and returns it; after assigning any nonzero
`n`, a read returns `n` with no traversal.  (Assigning `0` is excluded:
Python's falsy test treats a cached `0` as "not yet computed".) -/
theorem n_atoms_lazy_cache_and_setter (s : System) (n : Int) (hn : n ≠ 0)
    (h0 : s._n_atoms = none) :
    s.n_atoms_get = ((s.atoms.length : Int),
      { s with _n_atoms := some (s.atoms.length : Int) }, true) ∧
    (s.n_atoms_set n).n_atoms_get = (n, s.n_atoms_set n, false) := by
  constructor
  · simp [System.n_atoms_get, h0]
  · simp [System.n_atoms_get, System.n_atoms_set, hn]

/-- Witness for `n_atoms_lazy_cache_and_setter` on the one-atom system
with `n = 5`. -/
theorem n_atoms_lazy_cache_and_setter_witness :
    (5 : Int) ≠ 0 ∧ oneAtomSystem._n_atoms = none ∧
    (oneAtomSystem.n_atoms_get = ((oneAtomSystem.atoms.length : Int),
        { oneAtomSystem with _n_atoms := some (oneAtomSystem.atoms.length : Int) },
        true) ∧
      (oneAtomSystem.n_atoms_set 5).n_atoms_get = (5, oneAtomSystem.n_atoms_set 5,
        false)) :=
  ⟨by decide, rfl, n_atoms_lazy_cache_and_setter oneAtomSystem 5 (by decide) rfl⟩

/-- C8 (counterexample): after assigning `n_atoms = 0` on the one-atom
system, the next read re-traverses the atoms (flag `true`) and returns
the actual count `1`, not the assigned `0`. -/
theorem n_atoms_setter_zero_recomputes :
    ((oneAtomSystem.n_atoms_set 0).n_atoms_get).1 = 1 ∧
    ((oneAtomSystem.n_atoms_set 0).n_atoms_get).2.2 = true ∧
    (1 : Int) ≠ 0 :=
  ⟨rfl, rfl, by decide⟩

/-- A loop that yields one value per input element produces exactly as
many values as inputs whenever it finishes without raising. -/
theorem yieldAll_length {α β : Type} (f : α → Except PyErr β) :
    ∀ (l : List α) (bs : List β), yieldAll f l = .ok bs → bs.length = l.length := by
  intro l
  induction l with
  | nil =>
    intro bs h
    cases h
    rfl
  | cons a as ih =>
    intro bs h
    unfold yieldAll at h
    cases hfa : f a with
    | error e => rw [hfa] at h; cases h
    | ok b =>
      rw [hfa] at h
      cases hrec : yieldAll f as with
      | error e => rw [hrec] at h; cases h
      | ok tl =>
        rw [hrec] at h
        cases h
        simp [ih tl hrec]

/-- C4 (amended): for every molecule type that holds at least one
molecule, its contribution to `connected_pairs_per_moleculetype` has
exactly as many edges as the type has bond templates, whatever the
replication count; a type with zero molecules contributes zero edges. -/
theorem connected_pairs_per_moleculetype_counts_bond_templates
    (mt : MoleculeType)
    (ps : List ((Atom × MoleculeType) × (Atom × MoleculeType)))
    (hmol : mt.molecules ≠ []) (hok : mt.first_molecule_pairs = .ok ps) :
    ps.length = mt.bonds.length := by
  unfold MoleculeType.first_molecule_pairs at hok
  cases hmols : mt.molecules with
  | nil => exact absurd hmols hmol
  | cons mol rest =>
    rw [hmols] at hok
    exact yieldAll_length _ _ _ hok

/-- Witness for `connected_pairs_per_moleculetype_counts_bond_templates`
on `waterType`: two molecules, one bond template, one yielded edge. -/
theorem connected_pairs_per_moleculetype_counts_bond_templates_witness :
    waterType.molecules ≠ [] ∧
    waterType.first_molecule_pairs = .ok [((0, waterType), (1, waterType))] ∧
    ([((0, waterType), (1, waterType))] :
        List ((Atom × MoleculeType) × (Atom × MoleculeType))).length
      = waterType.bonds.length :=
  ⟨by decide, rfl,
    connected_pairs_per_moleculetype_counts_bond_templates waterType _ (by decide) rfl⟩

/-- C4 (counterexample): `emptyBondedType` carries one bond template but
zero molecules, and its contribution to
`connected_pairs_per_moleculetype` is empty — 0 edges, not 1. -/
theorem connected_pairs_per_moleculetype_empty_type_yields_nothing :
    emptyBondedType.first_molecule_pairs = .ok [] ∧
    emptyBondedType.bonds.length = 1 ∧
    ([] : List ((Atom × MoleculeType) × (Atom × MoleculeType))).length
      ≠ emptyBondedType.bonds.length :=
  ⟨rfl, rfl, by decide⟩

/-- C9: `gromacs_energies` selects the `_d`-suffixed binaries exactly
when the complete double-precision set is usable, otherwise the
single-precision set exactly when that set is usable, and raises
`IOError` exactly when neither complete set is usable. -/
theorem gromacs_energies_binary_selection (which : String → Bool)
    (gro_path : String) :
    gromacs_energies_binaries which gro_path =
      if gmx_usable which gro_path "_d" then
        .ok (pathJoin gro_path "grompp_d", pathJoin gro_path "mdrun_d",
             pathJoin gro_path "g_energy_d")
      else if gmx_usable which gro_path "" then
        .ok (pathJoin gro_path "grompp", pathJoin gro_path "mdrun",
             pathJoin gro_path "g_energy")
      else .error "Unable to find GROMACS executables." := by
  unfold gromacs_energies_binaries
  by_cases hd : gmx_usable which gro_path "_d" <;>
    by_cases hs : gmx_usable which gro_path "" <;>
      simp [gmx_find_loop, hd, hs]

/-- C3 (amended): with no graph cached, a first `bondgraph` read builds
and caches the graph, a second read returns that same cached graph with
the state unchanged, and the graph's edge count equals the number of
distinct undirected pairs among those `connected_pairs` produces. -/
theorem bondgraph_memoized_and_counts_distinct_pairs (s : System)
    (g : NXGraph) (s' : System) (ps : List (Atom × Atom))
    (hcache : s._bondgraph = none) (hpairs : s.connected_pairs = .ok ps)
    (hrun : s.bondgraph = .ok (g, s')) :
    s'.bondgraph = .ok (g, s') ∧
    g.number_of_edges = (ps.map canonEdge).toFinset.card := by
  unfold System.bondgraph at hrun
  rw [hcache, hpairs] at hrun
  simp [Except.map] at hrun
  obtain ⟨hg, hs'⟩ := hrun
  subst hg
  subst hs'
  constructor
  · rfl
  · simp [NXGraph.empty, NXGraph.add_edges_from, NXGraph.number_of_edges]

/-- Witness for `bondgraph_memoized_and_counts_distinct_pairs` on
`dimerSystem`: two molecules of one type, one bond template each. -/
theorem bondgraph_memoized_and_counts_distinct_pairs_witness :
    dimerSystem._bondgraph = none ∧
    dimerSystem.connected_pairs = .ok [(0, 1), (2, 3)] ∧
    dimerSystem.bondgraph = .ok (dimerGraph, dimerCached) ∧
    (dimerCached.bondgraph = .ok (dimerGraph, dimerCached) ∧
      dimerGraph.number_of_edges
        = (([(0, 1), (2, 3)] : List (Atom × Atom)).map canonEdge).toFinset.card) :=
  ⟨rfl, rfl, rfl,
    bondgraph_memoized_and_counts_distinct_pairs dimerSystem dimerGraph dimerCached
      [(0, 1), (2, 3)] rfl rfl rfl⟩

/-- C3 (counterexample): `dupSystem` lists the same bond template twice,
so `connected_pairs` yields two pairs while the (simple, undirected)
bond graph has a single edge — the edge count is 1, not 2. -/
theorem bondgraph_dedupes_duplicate_bond_pairs :
    dupSystem.connected_pairs = .ok [(10, 11), (10, 11)] ∧
    ([(10, 11), (10, 11)] : List (Atom × Atom)).length = 2 ∧
    Except.map (fun p => p.1.number_of_edges) dupSystem.bondgraph = .ok 1 ∧
    (2 : ℕ) ≠ 1 :=
  ⟨rfl, rfl, rfl, by decide⟩

/-- Setting one key of an ordered dictionary changes exactly that key's
lookup. -/
theorem odLookup_odSet {α : Type} (e : List (String × α)) (k key : String)
    (v : α) :
    odLookup (odSet e key v) k = if k = key then some v else odLookup e k := by
  induction e with
  | nil =>
    by_cases hk : k = key
    · subst hk; simp [odSet, odLookup]
    · simp [odSet, odLookup, hk, Ne.symm hk]
  | cons p rest ih =>
    obtain ⟨a, b⟩ := p
    by_cases ha : a = key
    · subst ha
      by_cases hk : k = a
      · subst hk; simp [odSet, odLookup]
      · simp [odSet, odLookup, hk, Ne.symm hk]
    · by_cases hak : a = k
      · subst hak
        simp [odSet, odLookup, ha, Ne.symm (Ne.symm ha)]
      · simp [odSet, odLookup, ha, hak, ih]

/-- Deleting any key preserves the absence of an absent key. -/
theorem odLookup_odDel_none {α : Type} (e : List (String × α)) (k key : String)
    (h : odLookup e k = none) : odLookup (odDel e key) k = none := by
  induction e with
  | nil => simpa [odDel] using h
  | cons p rest ih =>
    obtain ⟨a, b⟩ := p
    unfold odLookup at h
    by_cases hak : a = k
    · rw [if_pos hak] at h; cases h
    · rw [if_neg hak] at h
      unfold odDel
      by_cases hkey : a = key
      · rw [if_pos hkey]; exact h
      · rw [if_neg hkey]; unfold odLookup; rw [if_neg hak]; exact ih h

/-- The denylist-deletion pass preserves the absence of an absent key. -/
theorem foldl_odDel_none {α : Type} (k : String) :
    ∀ (gs : List String) (e : List (String × α)), odLookup e k = none →
      odLookup (gs.foldl (fun acc g => odDel acc g) e) k = none := by
  intro gs
  induction gs with
  | nil => intro e h; exact h
  | cons g rest ih =>
    intro e h
    rw [List.foldl_cons]
    exact ih _ (odLookup_odDel_none _ _ _ h)

/-- A category-member step touches no key other than its category. -/
theorem catStep_lookup_ne (cat k : String) (hk : k ≠ cat) (acc : EDict)
    (g : String) : odLookup (catStep cat acc g) k = odLookup acc k := by
  unfold catStep
  cases hg : odLookup acc g with
  | none => rfl
  | some v => rw [odLookup_odSet, if_neg hk]

/-- A whole category pass touches no key other than its category. -/
theorem foldl_catStep_ne (cat k : String) (hk : k ≠ cat) :
    ∀ (ms : List String) (acc : EDict),
      odLookup (ms.foldl (catStep cat) acc) k = odLookup acc k := by
  intro ms
  induction ms with
  | nil => intro acc; rfl
  | cons g rest ih =>
    intro acc
    rw [List.foldl_cons, ih, catStep_lookup_ne cat k hk]

/-- Other keys look up the same before and after a category pass. -/
theorem accumulateCategory_lookup_ne (cat : String) (ms : List String)
    (e : EDict) (k : String) (hk : k ≠ cat) :
    odLookup (accumulateCategory cat ms e) k = odLookup e k := by
  unfold accumulateCategory
  rw [foldl_catStep_ne cat k hk, odLookup_odSet, if_neg hk]

/-- A category-member step preserves the presence of any present key. -/
theorem catStep_isSome (cat k : String) (acc : EDict) (g : String)
    (h : (odLookup acc k).isSome = true) :
    (odLookup (catStep cat acc g) k).isSome = true := by
  unfold catStep
  cases hg : odLookup acc g with
  | none => exact h
  | some v =>
    rw [odLookup_odSet]
    split
    · rfl
    · exact h

/-- A whole category pass preserves the presence of any present key. -/
theorem foldl_catStep_isSome (cat k : String) :
    ∀ (ms : List String) (acc : EDict), (odLookup acc k).isSome = true →
      (odLookup (ms.foldl (catStep cat) acc) k).isSome = true := by
  intro ms
  induction ms with
  | nil => intro acc h; exact h
  | cons g rest ih =>
    intro acc h
    rw [List.foldl_cons]
    exact ih _ (catStep_isSome _ _ _ _ h)

/-- A category pass always leaves its own category present. -/
theorem accumulateCategory_self_isSome (cat : String) (ms : List String)
    (e : EDict) :
    (odLookup (accumulateCategory cat ms e) cat).isSome = true := by
  apply foldl_catStep_isSome
  rw [odLookup_odSet, if_pos rfl]
  rfl

/-- A category pass over members that are all absent only installs the
zero-initialised category entry. -/
theorem foldl_catStep_absent (cat : String) :
    ∀ (ms : List String) (acc : EDict), (∀ g ∈ ms, odLookup acc g = none) →
      ms.foldl (catStep cat) acc = acc := by
  intro ms
  induction ms with
  | nil => intro acc _; rfl
  | cons g rest ih =>
    intro acc h
    rw [List.foldl_cons]
    have hstep : catStep cat acc g = acc := by
      unfold catStep
      rw [h g (List.mem_cons_self g rest)]
    rw [hstep]
    exact ih acc fun x hx => h x (List.mem_cons_of_mem g hx)

/-- If every member of a category is absent once the category entry is
zero-initialised, the pass leaves the category reading back 0. -/
theorem accumulateCategory_absent_self (cat : String) (ms : List String)
    (e : EDict) (h : ∀ g ∈ ms, odLookup (odSet e cat 0) g = none) :
    odLookup (accumulateCategory cat ms e) cat = some 0 := by
  unfold accumulateCategory
  rw [foldl_catStep_absent _ _ _ h, odLookup_odSet, if_pos rfl]

/-- C5: on the specification's example input the grouped output drops
"Kinetic En.", maps "Dispersive" to 10, "Electrostatic" to -20,
"Non-bonded" to -10, and holds "All dihedrals" with value 0; in general
every synthetic category is present in the output for any input, and
when every dihedral member term is absent the "All dihedrals" category
is still present with value 0 — absent members contribute zero and
never cause an error. -/
theorem group_energy_terms_spec :
    (odLookup (group_energy_terms sampleTerms) "Kinetic En." = none ∧
     odLookup (group_energy_terms sampleTerms) "Dispersive" = some 10 ∧
     odLookup (group_energy_terms sampleTerms) "Electrostatic" = some (-20) ∧
     odLookup (group_energy_terms sampleTerms) "Non-bonded" = some (-10) ∧
     odLookup (group_energy_terms sampleTerms) "All dihedrals" = some 0) ∧
    (∀ e : EDict,
      (odLookup (group_energy_terms e) "Dispersive").isSome = true ∧
      (odLookup (group_energy_terms e) "Electrostatic").isSome = true ∧
      (odLookup (group_energy_terms e) "Non-bonded").isSome = true ∧
      (odLookup (group_energy_terms e) "All dihedrals").isSome = true) ∧
    (∀ e : EDict, (∀ t ∈ all_dihedrals_terms, odLookup e t = none) →
      odLookup (group_energy_terms e) "All dihedrals" = some 0) := by
  refine ⟨⟨?_, ?_, ?_, ?_, ?_⟩, ?_, ?_⟩
  · simp [group_energy_terms, accumulateCategory, catStep, unwanted,
      dispersive_terms, electrostatic_terms, all_dihedrals_terms, odSet, odDel,
      odLookup, sampleTerms]
    try norm_num
  · simp [group_energy_terms, accumulateCategory, catStep, unwanted,
      dispersive_terms, electrostatic_terms, all_dihedrals_terms, odSet, odDel,
      odLookup, sampleTerms]
    try norm_num
  · simp [group_energy_terms, accumulateCategory, catStep, unwanted,
      dispersive_terms, electrostatic_terms, all_dihedrals_terms, odSet, odDel,
      odLookup, sampleTerms]
    try norm_num
  · simp [group_energy_terms, accumulateCategory, catStep, unwanted,
      dispersive_terms, electrostatic_terms, all_dihedrals_terms, odSet, odDel,
      odLookup, sampleTerms]
    try norm_num
  · simp [group_energy_terms, accumulateCategory, catStep, unwanted,
      dispersive_terms, electrostatic_terms, all_dihedrals_terms, odSet, odDel,
      odLookup, sampleTerms]
    try norm_num
  · intro e
    simp only [group_energy_terms]
    refine ⟨?_, ?_, ?_, ?_⟩
    · rw [accumulateCategory_lookup_ne _ _ _ _ (by decide),
        odLookup_odSet, if_neg (by decide),
        accumulateCategory_lookup_ne _ _ _ _ (by decide)]
      exact accumulateCategory_self_isSome _ _ _
    · rw [accumulateCategory_lookup_ne _ _ _ _ (by decide),
        odLookup_odSet, if_neg (by decide)]
      exact accumulateCategory_self_isSome _ _ _
    · rw [accumulateCategory_lookup_ne _ _ _ _ (by decide),
        odLookup_odSet, if_pos rfl]
      rfl
    · exact accumulateCategory_self_isSome _ _ _
  · intro e h
    simp only [group_energy_terms]
    apply accumulateCategory_absent_self
    intro g hg
    have hg' : g = "Ryckaert-Bell." ∨ g = "Proper Dih." ∨ g = "Improper Dih." := by
      simpa [all_dihedrals_terms] using hg
    have h0 : odLookup e g = none := h g hg
    have hne1 : g ≠ "All dihedrals" := by
      rcases hg' with h' | h' | h' <;> subst h' <;> decide
    have hne2 : g ≠ "Non-bonded" := by
      rcases hg' with h' | h' | h' <;> subst h' <;> decide
    have hne3 : g ≠ "Electrostatic" := by
      rcases hg' with h' | h' | h' <;> subst h' <;> decide
    have hne4 : g ≠ "Dispersive" := by
      rcases hg' with h' | h' | h' <;> subst h' <;> decide
    rw [odLookup_odSet, if_neg hne1, odLookup_odSet, if_neg hne2,
      accumulateCategory_lookup_ne _ _ _ _ hne3,
      accumulateCategory_lookup_ne _ _ _ _ hne4]
    exact foldl_odDel_none _ _ _ h0

/-- Witness for the absent-members clause of `group_energy_terms_spec`:
the example input has no dihedral member terms, yet the grouped output
holds "All dihedrals" with value 0. -/
theorem group_energy_terms_spec_witness :
    (∀ t ∈ all_dihedrals_terms, odLookup sampleTerms t = none) ∧
    odLookup (group_energy_terms sampleTerms) "All dihedrals" = some 0 :=
  ⟨by decide, group_energy_terms_spec.2.2 sampleTerms (by decide)⟩

end InterMol
